import Mathlib

/-!
Verification development for the aletheia-web intelligence-ledger pipeline.

The TypeScript source is embedded shallowly:
- database rows become structures over `Int` / `String` / `List`;
- JSON payloads built with `JSON.stringify` become values of the `JsonVal`
  inductive mirroring the object literals in the source;
- each unit's entry point becomes a pure function from its read window (the
  rows the drizzle queries would return) to its result object together with
  the list of rows it inserts into `intelligenceLedger`;
- store/insert failures (caught by the units' try/catch blocks) are injected
  through explicit fault flags, one per insert site;
- JavaScript numbers that the claims exercise are integers and are modelled
  as `Int`; the fixed-point resonance tag is divided in `ℚ` where the source
  divides by 100.
-/

namespace Aletheia

/-- Producer identity, from the `module` column / the client `Module` type. -/
inductive ModuleName where
  | MINER
  | REAPER
  | HUNTER
  | SEEKER
  | SIN_EATER
  | ANALYST
deriving DecidableEq

/-- The string stored in the `module` column for each producer. -/
def moduleNameString : ModuleName → String
  | .MINER => "MINER"
  | .REAPER => "REAPER"
  | .HUNTER => "HUNTER"
  | .SEEKER => "SEEKER"
  | .SIN_EATER => "SIN_EATER"
  | .ANALYST => "ANALYST"

/-- Severity levels, from the `severity` column enum. -/
inductive Severity where
  | CRITICAL
  | HIGH
  | MEDIUM
  | LOW
  | INFO
deriving DecidableEq

/-- The string stored in the `severity` column. -/
def severityString : Severity → String
  | .CRITICAL => "CRITICAL"
  | .HIGH => "HIGH"
  | .MEDIUM => "MEDIUM"
  | .LOW => "LOW"
  | .INFO => "INFO"

/-- JSON-like values, mirroring the object literals the units pass to
`JSON.stringify` when building the `data` column. -/
inductive JsonVal where
  | num (n : Int)
  | str (s : String)
  | boolVal (b : Bool)
  | arr (items : List JsonVal)
  | obj (fields : List (String × JsonVal))

/-- Field lookup on a JSON object value. -/
def JsonVal.lookupField (v : JsonVal) (key : String) : Option JsonVal :=
  match v with
  | .obj fields => fields.lookup key
  | _ => none

/-- A row of the externally-owned `analyses` table, with the fields the units
read (`patternsDetected` and `anomalies` are JSON-encoded string arrays in the
database and are modelled in decoded form). -/
structure Analysis where
  analysisId : String
  truthIndex : Int
  integrityIndex : Int
  riskIndex : Int
  awakeningIndex : Int
  drift : Int
  consistency : Int
  driftDirection : String
  status : String
  riskLevel : String
  patternsDetected : List String
  anomalies : List String
  createdAt : Int

/-- The values object a unit passes to `db.insert(intelligenceLedger).values`:
exactly the fields the source sets explicitly (the remaining columns take
database defaults). -/
structure LedgerInsert where
  module : ModuleName
  type : String
  data : JsonVal
  severity : Severity
  lambda : Int
  sourceReference : String
  idempotencyKey : String

/-- A full row of the `intelligenceLedger` table as returned by a select. -/
structure LedgerRow where
  id : Nat
  module : ModuleName
  type : String
  data : JsonVal
  severity : Severity
  lambda : Int
  processedAt : Int
  idempotencyKey : String
  sourceReference : String
  processed : Int
  createdAt : Int

/-- `ORDER BY createdAt DESC` on `analyses`: newest first. -/
def analysisNewestFirst (a b : Analysis) : Prop :=
  b.createdAt ≤ a.createdAt

instance : DecidableRel analysisNewestFirst :=
  fun a b => Int.decLe b.createdAt a.createdAt

/-- `ORDER BY createdAt DESC` on `intelligenceLedger`: newest first. -/
def rowNewestFirst (a b : LedgerRow) : Prop :=
  b.createdAt ≤ a.createdAt

instance : DecidableRel rowNewestFirst :=
  fun a b => Int.decLe b.createdAt a.createdAt

/-! ### Ledger store append path

The `module` and `severity` column enums come from the migration
`0002_wide_jocasta.sql`; an insert whose values fall outside an enum violates
the column constraint and the append fails instead of inserting. -/

/-- The `module` enum of `intelligenceLedger` in migration 0002:
`enum('MINER','REAPER','HUNTER','SEEKER','SIN_EATER')`. -/
def ddlModuleEnum : List String :=
  ["MINER", "REAPER", "HUNTER", "SEEKER", "SIN_EATER"]

/-- The `severity` enum of `intelligenceLedger` in migration 0002. -/
def ddlSeverityEnum : List String :=
  ["CRITICAL", "HIGH", "MEDIUM", "LOW", "INFO"]

/-- Outcome of one store append. -/
inductive AppendOutcome where
  | inserted (id : Nat)
  | writeError (message : String)
deriving DecidableEq

/-- Append one record to the ledger table: succeeds with the next surrogate id
when the values satisfy the column enum constraints of migration 0002, and
fails with a write error otherwise. -/
def storeAppend (nextId : Nat) (ins : LedgerInsert) : AppendOutcome :=
  if moduleNameString ins.module ∈ ddlModuleEnum ∧
      severityString ins.severity ∈ ddlSeverityEnum then
    .inserted nextId
  else
    .writeError "enum constraint violation"

/-! ### Hunter (`intelligence-hunter.ts`, `detectAnomalies`) -/

/-- Hunter configuration (`HunterConfig`). -/
structure HunterConfig where
  driftThreshold : Option Int := none

/-- Hunter unit result (`HunterResult`). -/
structure HunterResult where
  success : Bool
  anomaliesDetected : Nat
  contradictionsFound : Nat
  highValueSignals : Nat
  errors : List String
  lambda : ℚ

/-- Fault injection for `detectAnomalies`: one flag per insert site, true when
that `db.insert` call would throw. -/
structure FaultSpec where
  failDrift : Bool
  failContradiction : Bool
  failSignal : Bool

/-- `config.driftThreshold || 30`: JavaScript `||` falls back to 30 when the
threshold is absent or `0` (zero is falsy). -/
def hunterThreshold (cfg : HunterConfig) : Int :=
  match cfg.driftThreshold with
  | some t => if t = 0 then 30 else t
  | none => 30

/-- The Hunter read window: recent analyses ordered newest first, `limit(100)`. -/
def hunterRecent (rows : List Analysis) : List Analysis :=
  (List.insertionSort analysisNewestFirst rows).take 100

/-- `recentAnalyses.filter(a => a.drift > driftThreshold)`. -/
def hunterHighDrift (cfg : HunterConfig) (rows : List Analysis) : List Analysis :=
  (hunterRecent rows).filter (fun a => decide (hunterThreshold cfg < a.drift))

/-- `recentAnalyses.filter(a => a.truthIndex > 70 && a.riskIndex > 60)`. -/
def hunterContradictions (rows : List Analysis) : List Analysis :=
  (hunterRecent rows).filter (fun a => decide (70 < a.truthIndex ∧ 60 < a.riskIndex))

/-- `recentAnalyses.filter(a => a.awakeningIndex > 75 && a.truthIndex > 75)`. -/
def hunterSignals (rows : List Analysis) : List Analysis :=
  (hunterRecent rows).filter (fun a => decide (75 < a.awakeningIndex ∧ 75 < a.truthIndex))

/-- The DRIFT_ANOMALY insert values built by the drift sub-step. -/
def mkDriftInsert (threshold now : Int) (highDrift : List Analysis) : LedgerInsert :=
  { module := .HUNTER
    type := "DRIFT_ANOMALY"
    data := .obj
      [("count", .num highDrift.length),
       ("threshold", .num threshold),
       ("analyses", .arr (highDrift.map fun a =>
         .obj [("id", .str a.analysisId), ("drift", .num a.drift),
               ("driftDirection", .str a.driftDirection)]))]
    severity := .HIGH
    lambda := 167
    sourceReference := "drift-analysis"
    idempotencyKey := "hunter-drift-" ++ toString now }

/-- The CONTRADICTION insert values built by the contradiction sub-step. -/
def mkContradictionInsert (now : Int) (contradictions : List Analysis) : LedgerInsert :=
  { module := .HUNTER
    type := "CONTRADICTION"
    data := .obj
      [("count", .num contradictions.length),
       ("analyses", .arr (contradictions.map fun a =>
         .obj [("id", .str a.analysisId), ("truthIndex", .num a.truthIndex),
               ("riskIndex", .num a.riskIndex), ("status", .str a.status)]))]
    severity := .MEDIUM
    lambda := 167
    sourceReference := "contradiction-analysis"
    idempotencyKey := "hunter-contradiction-" ++ toString now }

/-- The HIGH_VALUE_SIGNAL insert values built by the signal sub-step. -/
def mkSignalInsert (now : Int) (signals : List Analysis) : LedgerInsert :=
  { module := .HUNTER
    type := "HIGH_VALUE_SIGNAL"
    data := .obj
      [("count", .num signals.length),
       ("analyses", .arr (signals.map fun a =>
         .obj [("id", .str a.analysisId), ("awakeningIndex", .num a.awakeningIndex),
               ("truthIndex", .num a.truthIndex), ("status", .str a.status)]))]
    severity := .CRITICAL
    lambda := 167
    sourceReference := "signal-analysis"
    idempotencyKey := "hunter-signal-" ++ toString now }

/-- Rows the drift sub-step inserts when it runs without failure. -/
def driftStepInserts (cfg : HunterConfig) (now : Int) (rows : List Analysis) :
    List LedgerInsert :=
  if 0 < (hunterHighDrift cfg rows).length then
    [mkDriftInsert (hunterThreshold cfg) now (hunterHighDrift cfg rows)]
  else []

/-- Rows the contradiction sub-step inserts when it runs without failure. -/
def contradictionStepInserts (now : Int) (rows : List Analysis) : List LedgerInsert :=
  if 0 < (hunterContradictions rows).length then
    [mkContradictionInsert now (hunterContradictions rows)]
  else []

/-- Rows the signal sub-step inserts when it runs without failure. -/
def signalStepInserts (now : Int) (rows : List Analysis) : List LedgerInsert :=
  if 0 < (hunterSignals rows).length then
    [mkSignalInsert now (hunterSignals rows)]
  else []

/-- `detectAnomalies`: the three sub-steps run sequentially inside one
try/catch; a throwing insert jumps to the single catch block, which records
one error message and sets `success=false`, leaving the sub-steps after the
failing one unexecuted.  Returns the unit result together with the ledger
rows actually inserted. -/
def detectAnomalies (cfg : HunterConfig) (fault : FaultSpec) (now : Int)
    (rows : List Analysis) : HunterResult × List LedgerInsert :=
  let highDrift := hunterHighDrift cfg rows
  if 0 < highDrift.length ∧ fault.failDrift = true then
    ({ success := false, anomaliesDetected := 0, contradictionsFound := 0,
       highValueSignals := 0, errors := ["Anomaly detection failed: WriteError"],
       lambda := 1.67 }, [])
  else
    let recs1 := driftStepInserts cfg now rows
    let contradictions := hunterContradictions rows
    if 0 < contradictions.length ∧ fault.failContradiction = true then
      ({ success := false, anomaliesDetected := highDrift.length,
         contradictionsFound := 0, highValueSignals := 0,
         errors := ["Anomaly detection failed: WriteError"], lambda := 1.67 }, recs1)
    else
      let recs2 := contradictionStepInserts now rows
      let signals := hunterSignals rows
      if 0 < signals.length ∧ fault.failSignal = true then
        ({ success := false, anomaliesDetected := highDrift.length,
           contradictionsFound := contradictions.length, highValueSignals := 0,
           errors := ["Anomaly detection failed: WriteError"], lambda := 1.67 },
         recs1 ++ recs2)
      else
        ({ success := true, anomaliesDetected := highDrift.length,
           contradictionsFound := contradictions.length,
           highValueSignals := signals.length, errors := [], lambda := 1.67 },
         recs1 ++ recs2 ++ signalStepInserts now rows)

/-! ### Reaper (`extractSemanticEssence`) -/

/-- Reaper unit result (`ReaperResult`). -/
structure ReaperResult where
  success : Bool
  entriesCreated : Nat
  semanticSignals : Nat
  errors : List String
  lambda : ℚ

/-- The Reaper lookup: `select().from(analyses).where(analysisId = id).limit(1)`. -/
def reaperFind (analysisId : String) (table : List Analysis) : List Analysis :=
  (table.filter (fun a => decide (a.analysisId = analysisId))).take 1

/-- The `semanticData` object built from the fetched analysis. -/
def semanticEssenceData (analysisId : String) (d : Analysis) : JsonVal :=
  .obj
    [("analysisId", .str analysisId),
     ("truthIndex", .num d.truthIndex),
     ("integrityIndex", .num d.integrityIndex),
     ("riskIndex", .num d.riskIndex),
     ("awakeningIndex", .num d.awakeningIndex),
     ("keyPatterns", .arr (d.patternsDetected.map .str)),
     ("anomalies", .arr (d.anomalies.map .str)),
     ("essence", .obj
       [("status", .str d.status), ("riskLevel", .str d.riskLevel),
        ("consistency", .num d.consistency), ("drift", .num d.drift)])]

/-- `extractSemanticEssence`: fetch one analysis by id; when found, insert one
SEMANTIC_SUMMARY record whose severity is derived from `riskIndex`
(`riskIndex > 70 ? HIGH : riskIndex > 40 ? MEDIUM : LOW`). -/
def extractSemanticEssence (now : Int) (analysisId : String) (table : List Analysis) :
    ReaperResult × List LedgerInsert :=
  match reaperFind analysisId table with
  | [] =>
    ({ success := false, entriesCreated := 0, semanticSignals := 0,
       errors := ["Analysis not found: " ++ analysisId], lambda := 1.67 }, [])
  | d :: _ =>
    ({ success := true, entriesCreated := 1, semanticSignals := 1,
       errors := [], lambda := 1.67 },
     [{ module := .REAPER
        type := "SEMANTIC_SUMMARY"
        data := semanticEssenceData analysisId d
        severity := if 70 < d.riskIndex then .HIGH
                    else if 40 < d.riskIndex then .MEDIUM else .LOW
        lambda := 167
        sourceReference := analysisId
        idempotencyKey := "reaper-" ++ analysisId ++ "-" ++ toString now }])

/-! ### Seeker (`calculateSimilarity`) -/

/-- `calculateSimilarity`: weighted agreement over status, riskLevel and the
truth/integrity indices (the source's literals 0.3 / 0.2 are the exact
rationals 3/10 and 2/10), normalised by the accumulated factor total. -/
def calculateSimilarity (a b : Analysis) : ℚ :=
  let similarity : ℚ := 0
  let factors : ℚ := 0
  let similarity := if a.status = b.status then similarity + 3 / 10 else similarity
  let factors := factors + 3 / 10
  let similarity := if a.riskLevel = b.riskLevel then similarity + 3 / 10 else similarity
  let factors := factors + 3 / 10
  let similarity := if |a.truthIndex - b.truthIndex| < 20 then similarity + 2 / 10 else similarity
  let factors := factors + 2 / 10
  let similarity :=
    if |a.integrityIndex - b.integrityIndex| < 20 then similarity + 2 / 10 else similarity
  let factors := factors + 2 / 10
  if 0 < factors then similarity / factors else 0

/-! ### Sin-Eater (`logError`, `detectDissonance`) -/

/-- Sin-Eater unit result (`SinEaterResult`). -/
structure SinEaterResult where
  success : Bool
  errorsLogged : Nat
  corruptionDetected : Nat
  dissonanceFound : Nat
  errors : List String
  lambda : ℚ

/-- The insert values produced by `logError(errorType, details, severity)`. -/
def logErrorInsert (now : Int) (errorType : String) (details : JsonVal)
    (severity : Severity) : LedgerInsert :=
  { module := .SIN_EATER
    type := errorType
    data := .obj
      [("timestamp", .num now), ("details", details), ("witnessed", .boolVal true),
       ("autoFixed", .boolVal false), ("requiresReview", .boolVal true)]
    severity := severity
    lambda := 167
    sourceReference := errorType
    idempotencyKey := "sin-eater-" ++ errorType ++ "-" ++ toString now }

/-- The per-module read window of `detectDissonance`:
`where(module = m).orderBy(createdAt DESC).limit(10)`. -/
def latestByModule (m : ModuleName) (ledger : List LedgerRow) : List LedgerRow :=
  (List.insertionSort rowNewestFirst
    (ledger.filter (fun r => decide (r.module = m)))).take 10

/-- `detectDissonance`: compare the latest Miner and Reaper entries; when the
Reaper's `processedAt` is behind the Miner's, log one PIPELINE_DISSONANCE
record at severity MEDIUM carrying the lag in milliseconds. -/
def detectDissonance (now : Int) (ledger : List LedgerRow) :
    SinEaterResult × List LedgerInsert :=
  let minerEntries := latestByModule .MINER ledger
  let reaperEntries := latestByModule .REAPER ledger
  match minerEntries, reaperEntries with
  | mh :: _, rh :: _ =>
    if rh.processedAt < mh.processedAt then
      ({ success := true, errorsLogged := 0, corruptionDetected := 0,
         dissonanceFound := 1, errors := [], lambda := 1.67 },
       [logErrorInsert now "PIPELINE_DISSONANCE"
         (.obj [("latestMinerTime", .num mh.processedAt),
                ("latestReaperTime", .num rh.processedAt),
                ("lagMs", .num (mh.processedAt - rh.processedAt))])
         .MEDIUM])
    else
      ({ success := true, errorsLogged := 0, corruptionDetected := 0,
         dissonanceFound := 0, errors := [], lambda := 1.67 }, [])
  | _, _ =>
    ({ success := true, errorsLogged := 0, corruptionDetected := 0,
       dissonanceFound := 0, errors := [], lambda := 1.67 }, [])

/-! ### Analyst (`generateBriefing`) -/

/-- Number of ledger entries produced by one module within a window. -/
def countByModule (m : ModuleName) (entries : List LedgerRow) : Nat :=
  (entries.filter (fun e => decide (e.module = m))).length

/-- `synthesizeKeyFindings`: one finding string per module with activity. -/
def synthesizeKeyFindings (entries : List LedgerRow) : List String :=
  let minerCount := countByModule .MINER entries
  let reaperCount := countByModule .REAPER entries
  let hunterEntries := entries.filter (fun e => decide (e.module = .HUNTER))
  let criticalHunter :=
    (hunterEntries.filter (fun e => decide (e.severity = .CRITICAL))).length
  let seekerCount := countByModule .SEEKER entries
  (if 0 < minerCount then [toString minerCount ++ " discovery events detected"] else []) ++
  (if 0 < reaperCount then [toString reaperCount ++ " semantic extractions completed"] else []) ++
  (if 0 < hunterEntries.length ∧ 0 < criticalHunter then
    [toString criticalHunter ++ " critical anomalies detected"] else []) ++
  (if 0 < seekerCount then [toString seekerCount ++ " relationship mappings created"] else [])

/-- `extractCriticalAlerts`: CRITICAL entries, capped at 10. -/
def extractCriticalAlerts (entries : List LedgerRow) : List JsonVal :=
  ((entries.filter (fun e => decide (e.severity = .CRITICAL))).map (fun e =>
    .obj [("module", .str (moduleNameString e.module)), ("type", .str e.type),
          ("time", .num e.createdAt)])).take 10

/-- `generateRecommendations`: rule-based recommendation strings. -/
def generateRecommendations (entries : List LedgerRow) : List String :=
  let hunterEntries := entries.filter (fun e => decide (e.module = .HUNTER))
  let hasHighSeverity :=
    hunterEntries.any (fun e => decide (e.severity = .HIGH ∨ e.severity = .CRITICAL))
  (if 0 < hunterEntries.length ∧ hasHighSeverity = true then
    ["Review detected anomalies immediately"] else []) ++
  (if 0 < countByModule .SIN_EATER entries then
    ["Address logged errors and corruption issues"] else []) ++
  ["Continue monitoring intelligence pipeline",
   "Review relationship mappings for strategic insights"]

/-- The per-module breakdown object of the briefing summary. -/
def moduleBreakdown (entries : List LedgerRow) : JsonVal :=
  .obj ((([ModuleName.MINER, .REAPER, .HUNTER, .SEEKER, .SIN_EATER, .ANALYST].filter
    (fun m => decide (0 < countByModule m entries))).map
    (fun m => (moduleNameString m, JsonVal.num (countByModule m entries)))))

/-- The insert values built by `generateBriefing`: one STRATEGIC_BRIEFING
record with `module: "ANALYST"`, assembled from the ledger entries inside the
time window (default 7 days). -/
def generateBriefingInsert (now timeWindowDays : Int) (ledger : List LedgerRow) :
    LedgerInsert :=
  let cutoff := now - timeWindowDays * 24 * 60 * 60 * 1000
  let recentIntelligence :=
    List.insertionSort rowNewestFirst
      (ledger.filter (fun r => decide (cutoff < r.createdAt)))
  { module := .ANALYST
    type := "STRATEGIC_BRIEFING"
    data := .obj
      [("generatedAt", .num now),
       ("timeWindow", .str (toString timeWindowDays ++ " days")),
       ("summary", .obj
         [("totalIntelligenceEntries", .num recentIntelligence.length),
          ("moduleBreakdown", moduleBreakdown recentIntelligence)]),
       ("keyFindings", .arr ((synthesizeKeyFindings recentIntelligence).map .str)),
       ("criticalAlerts", .arr (extractCriticalAlerts recentIntelligence)),
       ("recommendations", .arr ((generateRecommendations recentIntelligence).map .str))]
    severity := .INFO
    lambda := 167
    sourceReference := "briefing"
    idempotencyKey := "analyst-briefing-" ++ toString now }

/-! ### Router: ledger query endpoint (`intelligenceRouter.ledger`) -/

/-- Input of the ledger endpoint (`module?`, `severity?`, `limit` default 50). -/
structure LedgerQueryInput where
  module : Option ModuleName := none
  severity : Option Severity := none
  limit : Nat := 50

/-- One entry of the ledger endpoint's JSON response: the selected columns,
with `lambda` converted back to a decimal by dividing the stored integer by
100 and `data` parsed from its stored JSON text. -/
structure LedgerEntryOut where
  id : Nat
  module : ModuleName
  type : String
  severity : Severity
  lambda : ℚ
  processedAt : Int
  data : JsonVal

/-- The drizzle query builder keeps a single where-condition slot; each call
to `.where` stores its condition there, so a second call replaces the first.
The endpoint calls `.where` once for the module filter and once for the
severity filter, hence this sequential overwrite. -/
def effectiveWhere (inp : LedgerQueryInput) : Option (LedgerRow → Bool) :=
  let whereClause : Option (LedgerRow → Bool) := none
  let whereClause :=
    match inp.module with
    | some m => some (fun r => decide (r.module = m))
    | none => whereClause
  let whereClause :=
    match inp.severity with
    | some s => some (fun r => decide (r.severity = s))
    | none => whereClause
  whereClause

/-- Apply the builder's where-condition, when one was set. -/
def applyWhere (w : Option (LedgerRow → Bool)) (rows : List LedgerRow) :
    List LedgerRow :=
  match w with
  | some p => rows.filter p
  | none => rows

/-- The response mapping of the ledger endpoint for one row. -/
def ledgerEntryOut (e : LedgerRow) : LedgerEntryOut :=
  { id := e.id, module := e.module, type := e.type, severity := e.severity,
    lambda := (e.lambda : ℚ) / 100, processedAt := e.processedAt, data := e.data }

/-- The ledger endpoint: filter with the builder's effective where-condition,
order by `createdAt DESC`, apply the limit, and map each row to its response
shape. -/
def ledgerQuery (inp : LedgerQueryInput) (rows : List LedgerRow) :
    List LedgerEntryOut :=
  ((List.insertionSort rowNewestFirst
      (applyWhere (effectiveWhere inp) rows)).take inp.limit).map ledgerEntryOut

/-! ### Router: orchestrator (`intelligenceRouter.cycle`)

The six unit invocations are store-effectful calls; their outcomes are
supplied as parameters, and the orchestrator assembles the `results` object
(modelled as an association list in insertion order) and the constant-`true`
top-level success flag exactly as the source does. -/

/-- The cycle input flags, each defaulting to true. -/
structure CycleInput where
  includeMiner : Bool := true
  includeReaper : Bool := true
  includeHunter : Bool := true
  includeSeeker : Bool := true
  includeSinEater : Bool := true
  includeAnalyst : Bool := true

/-- The outcome value each unit invocation would contribute to `results`. -/
structure CycleUnitRuns (α : Type) where
  miner : α
  reaper : α
  hunter : α
  seeker : α
  sinEater : α
  analyst : α

/-- The object returned by the cycle endpoint. -/
structure CycleResult (α : Type) where
  success : Bool
  cycleTime : Int
  results : List (String × α)
  lambda : ℚ

/-- `cycle`: run the selected units in the fixed order Miner, Reaper, Hunter,
Seeker, Sin-Eater, Analyst, collecting one `results` key per executed unit,
and return `success: true` unconditionally. -/
def runCycle {α : Type} (inp : CycleInput) (runs : CycleUnitRuns α)
    (startTime endTime : Int) : CycleResult α :=
  let results : List (String × α) := []
  let results := if inp.includeMiner then results ++ [("miner", runs.miner)] else results
  let results := if inp.includeReaper then results ++ [("reaper", runs.reaper)] else results
  let results := if inp.includeHunter then results ++ [("hunter", runs.hunter)] else results
  let results := if inp.includeSeeker then results ++ [("seeker", runs.seeker)] else results
  let results := if inp.includeSinEater then results ++ [("sinEater", runs.sinEater)] else results
  let results := if inp.includeAnalyst then results ++ [("analyst", runs.analyst)] else results
  { success := true, cycleTime := endTime - startTime, results := results, lambda := 1.67 }

/-! ### Concrete inputs used by witnesses and counterexamples -/

/-- An analysis triggering all three Hunter filters (drift above 30, truth
above 70 and 75, risk above 60, awakening above 75). -/
def c1Analysis : Analysis :=
  { analysisId := "A-c1", truthIndex := 80, integrityIndex := 50, riskIndex := 65,
    awakeningIndex := 80, drift := 50, consistency := 0, driftDirection := "up",
    status := "ACTIVE", riskLevel := "HIGH", patternsDetected := [], anomalies := [],
    createdAt := 0 }

/-- The single-row batch for the Hunter partial-failure counterexample. -/
def c1Rows : List Analysis := [c1Analysis]

/-- Fault making only the drift-anomaly insert throw. -/
def c1Fault : FaultSpec :=
  { failDrift := true, failContradiction := false, failSignal := false }

/-- An analysis triggering only the contradiction filter. -/
def c1bAnalysis : Analysis :=
  { analysisId := "B-c1", truthIndex := 80, integrityIndex := 50, riskIndex := 65,
    awakeningIndex := 10, drift := 0, consistency := 0, driftDirection := "none",
    status := "ACTIVE", riskLevel := "LOW", patternsDetected := [], anomalies := [],
    createdAt := 0 }

/-- The single-row batch for the amended Hunter failure theorem's witness. -/
def c1bRows : List Analysis := [c1bAnalysis]

/-- A MINER / severity HIGH ledger row used against the double-filter query. -/
def c3Row : LedgerRow :=
  { id := 1, module := .MINER, type := "DISCOVERY_EVENT", data := .obj [],
    severity := .HIGH, lambda := 167, processedAt := 0, idempotencyKey := "k1",
    sourceReference := "s1", processed := 0, createdAt := 0 }

/-- A ledger request filtering on module HUNTER and severity HIGH. -/
def c3Input : LedgerQueryInput :=
  { module := some .HUNTER, severity := some .HIGH, limit := 50 }

/-- Three analyses with drift 10, 45 and 5 for the drift-scan scenario. -/
def c5Row1 : Analysis :=
  { analysisId := "D1", truthIndex := 0, integrityIndex := 0, riskIndex := 0,
    awakeningIndex := 0, drift := 10, consistency := 0, driftDirection := "up",
    status := "ACTIVE", riskLevel := "LOW", patternsDetected := [], anomalies := [],
    createdAt := 3 }

/-- Second drift-scan row (drift 45). -/
def c5Row2 : Analysis :=
  { analysisId := "D2", truthIndex := 0, integrityIndex := 0, riskIndex := 0,
    awakeningIndex := 0, drift := 45, consistency := 0, driftDirection := "up",
    status := "ACTIVE", riskLevel := "LOW", patternsDetected := [], anomalies := [],
    createdAt := 2 }

/-- Third drift-scan row (drift 5). -/
def c5Row3 : Analysis :=
  { analysisId := "D3", truthIndex := 0, integrityIndex := 0, riskIndex := 0,
    awakeningIndex := 0, drift := 5, consistency := 0, driftDirection := "down",
    status := "ACTIVE", riskLevel := "LOW", patternsDetected := [], anomalies := [],
    createdAt := 1 }

/-- Latest Miner ledger row, `processedAt` = 10000. -/
def c6MinerRow : LedgerRow :=
  { id := 1, module := .MINER, type := "DISCOVERY_EVENT", data := .obj [],
    severity := .INFO, lambda := 167, processedAt := 10000, idempotencyKey := "m1",
    sourceReference := "github", processed := 0, createdAt := 10000 }

/-- Latest Reaper ledger row, `processedAt` = 5000. -/
def c6ReaperRow : LedgerRow :=
  { id := 2, module := .REAPER, type := "SEMANTIC_SUMMARY", data := .obj [],
    severity := .LOW, lambda := 167, processedAt := 5000, idempotencyKey := "r1",
    sourceReference := "A1", processed := 0, createdAt := 5000 }

/-- Ledger for the Sin-Eater lag scenario witness. -/
def c6Ledger : List LedgerRow := [c6MinerRow, c6ReaperRow]

/-- An analysis with riskIndex 85 for the Reaper severity witness. -/
def c7Analysis : Analysis :=
  { analysisId := "R1", truthIndex := 60, integrityIndex := 60, riskIndex := 85,
    awakeningIndex := 10, drift := 0, consistency := 1, driftDirection := "none",
    status := "ACTIVE", riskLevel := "HIGH", patternsDetected := ["p1"],
    anomalies := [], createdAt := 0 }

/-- A ledger row storing lambda 167 for the resonance-scaling witness. -/
def c9Row : LedgerRow :=
  { id := 7, module := .MINER, type := "DISCOVERY_EVENT", data := .obj [],
    severity := .INFO, lambda := 167, processedAt := 0, idempotencyKey := "k9",
    sourceReference := "s9", processed := 0, createdAt := 0 }

/-- An unfiltered ledger request for the resonance-scaling witness. -/
def c9Input : LedgerQueryInput := { module := none, severity := none, limit := 50 }

/-! ## Theorems -/

/-- C10: the orchestrator cycle's top-level success field is the constant
true — for every selection of units and every per-unit outcome (including all
units reporting failure), the returned `CycleResult` has `success = true`. -/
theorem runCycle_success_constant {α : Type} (inp : CycleInput)
    (runs : CycleUnitRuns α) (startTime endTime : Int) :
    (runCycle inp runs startTime endTime).success = true := rfl

/-- C4: a cycle selecting all six units returns per-unit results with exactly
six top-level keys, one per unit, in the fixed execution order Miner, Reaper,
Hunter, Seeker, Sin-Eater, Analyst. -/
theorem runCycle_all_units_keys {α : Type} (runs : CycleUnitRuns α)
    (startTime endTime : Int) :
    ((runCycle {} runs startTime endTime).results.map Prod.fst) =
      ["miner", "reaper", "hunter", "seeker", "sinEater", "analyst"] ∧
    (runCycle {} runs startTime endTime).results.length = 6 :=
  ⟨rfl, rfl⟩

/-- C2: the Analyst strategic-briefing insert carries module ANALYST, which is
absent from the `module` enum of migration 0002, so the store append fails
with a write error instead of inserting — for every clock value, time window
and ledger contents. -/
theorem analyst_briefing_append_fails (now timeWindowDays : Int)
    (ledger : List LedgerRow) (nextId : Nat) :
    storeAppend nextId (generateBriefingInsert now timeWindowDays ledger) =
      .writeError "enum constraint violation" := by
  have h : ¬ (moduleNameString (generateBriefingInsert now timeWindowDays ledger).module
      ∈ ddlModuleEnum ∧
      severityString (generateBriefingInsert now timeWindowDays ledger).severity
      ∈ ddlSeverityEnum) := by
    intro hmem
    exact (by decide : ¬ ("ANALYST" ∈ ddlModuleEnum)) hmem.1
  unfold storeAppend
  rw [if_neg h]

/-- C3: querying the ledger with both a module filter (HUNTER) and a severity
filter (HIGH) returns a MINER entry, because the second `.where` call replaces
the module condition — the returned list does not satisfy the module filter. -/
theorem ledgerQuery_module_filter_ignored :
    (ledgerQuery c3Input [c3Row]).map LedgerEntryOut.module = [ModuleName.MINER] ∧
    c3Input.module = some ModuleName.HUNTER ∧
    ModuleName.MINER ≠ ModuleName.HUNTER ∧
    (ledgerQuery c3Input [c3Row]).length = 1 :=
  ⟨rfl, rfl, by decide, rfl⟩

/-- C8: Seeker's similarity function is symmetric in its two arguments. -/
theorem calculateSimilarity_symm (a b : Analysis) :
    calculateSimilarity a b = calculateSimilarity b a := by
  simp only [calculateSimilarity]
  rw [abs_sub_comm b.truthIndex a.truthIndex,
    abs_sub_comm b.integrityIndex a.integrityIndex]
  by_cases h1 : a.status = b.status
  · by_cases h2 : a.riskLevel = b.riskLevel
    · rw [if_pos h1, if_pos h1.symm, if_pos h2, if_pos h2.symm]
    · rw [if_pos h1, if_pos h1.symm, if_neg h2,
        if_neg (fun hh : b.riskLevel = a.riskLevel => h2 hh.symm)]
  · by_cases h2 : a.riskLevel = b.riskLevel
    · rw [if_neg h1, if_neg (fun hh : b.status = a.status => h1 hh.symm),
        if_pos h2, if_pos h2.symm]
    · rw [if_neg h1, if_neg (fun hh : b.status = a.status => h1 hh.symm),
        if_neg h2, if_neg (fun hh : b.riskLevel = a.riskLevel => h2 hh.symm)]

/-- C1 counterexample: a batch for which all three Hunter sub-steps would
insert and only the first (drift) sub-step's insert fails; the claim says the
other two sub-steps still append their records, but the run appends zero
records (the single try/catch aborts the remaining sub-steps) while reporting
`success = false` with exactly one error entry. -/
theorem detectAnomalies_single_failure_counterexample :
    0 < (hunterHighDrift {} c1Rows).length ∧
    0 < (hunterContradictions c1Rows).length ∧
    0 < (hunterSignals c1Rows).length ∧
    c1Fault.failDrift = true ∧ c1Fault.failContradiction = false ∧
    c1Fault.failSignal = false ∧
    (detectAnomalies {} c1Fault 0 c1Rows).1.success = false ∧
    (detectAnomalies {} c1Fault 0 c1Rows).1.errors.length = 1 ∧
    (detectAnomalies {} c1Fault 0 c1Rows).2 = [] :=
  ⟨by decide, by decide, by decide, rfl, rfl, rfl, rfl, rfl, rfl⟩

/-- C1 (amended): when exactly one attempted sub-step of `detectAnomalies`
fails, the unit result has `success = false` with exactly one error entry, the
sub-steps before the failing one keep the records they appended, and the
sub-steps after the failing one are skipped — in particular a failure in the
first (drift) sub-step leaves zero records written. -/
theorem detectAnomalies_failure_aborts_rest (cfg : HunterConfig) (now : Int)
    (rows : List Analysis) :
    (0 < (hunterHighDrift cfg rows).length →
      (detectAnomalies cfg ⟨true, false, false⟩ now rows).1.success = false ∧
      (detectAnomalies cfg ⟨true, false, false⟩ now rows).1.errors.length = 1 ∧
      (detectAnomalies cfg ⟨true, false, false⟩ now rows).2 = []) ∧
    (0 < (hunterContradictions rows).length →
      (detectAnomalies cfg ⟨false, true, false⟩ now rows).1.success = false ∧
      (detectAnomalies cfg ⟨false, true, false⟩ now rows).1.errors.length = 1 ∧
      (detectAnomalies cfg ⟨false, true, false⟩ now rows).2 =
        driftStepInserts cfg now rows) ∧
    (0 < (hunterSignals rows).length →
      (detectAnomalies cfg ⟨false, false, true⟩ now rows).1.success = false ∧
      (detectAnomalies cfg ⟨false, false, true⟩ now rows).1.errors.length = 1 ∧
      (detectAnomalies cfg ⟨false, false, true⟩ now rows).2 =
        driftStepInserts cfg now rows ++ contradictionStepInserts now rows) := by
  refine ⟨fun h => ?_, fun h => ?_, fun h => ?_⟩
  · simp only [detectAnomalies]
    rw [if_pos ⟨h, trivial⟩]
    exact ⟨rfl, rfl, rfl⟩
  · simp only [detectAnomalies]
    rw [if_neg (fun hh => Bool.false_ne_true hh.2), if_pos ⟨h, trivial⟩]
    exact ⟨rfl, rfl, rfl⟩
  · simp only [detectAnomalies]
    rw [if_neg (fun hh => Bool.false_ne_true hh.2), if_neg (fun hh => Bool.false_ne_true hh.2), if_pos ⟨h, trivial⟩]
    exact ⟨rfl, rfl, rfl⟩

/-- C1 witness: the amended theorem applied to a concrete batch whose
contradiction sub-step is attempted and fails. -/
theorem detectAnomalies_failure_aborts_rest_witness :
    (detectAnomalies {} ⟨false, true, false⟩ 0 c1bRows).1.success = false ∧
    (detectAnomalies {} ⟨false, true, false⟩ 0 c1bRows).1.errors.length = 1 ∧
    (detectAnomalies {} ⟨false, true, false⟩ 0 c1bRows).2 =
      driftStepInserts {} 0 c1bRows :=
  (detectAnomalies_failure_aborts_rest {} 0 c1bRows).2.1 (by decide)

/-- The Hunter read window of a batch of at most 100 analyses is a
permutation of the batch. -/
theorem hunterRecent_perm_of_le (rows : List Analysis) (h : rows.length ≤ 100) :
    List.Perm (hunterRecent rows) rows := by
  unfold hunterRecent
  rw [List.take_of_length_le (by rw [List.length_insertionSort]; exact h)]
  exact List.perm_insertionSort _ _

/-- The contradiction sub-step never inserts a DRIFT_ANOMALY record. -/
theorem contradictionStepInserts_no_drift (now : Int) (rows : List Analysis) :
    (contradictionStepInserts now rows).filter
      (fun rec => decide (rec.type = "DRIFT_ANOMALY")) = [] := by
  unfold contradictionStepInserts
  split
  · rfl
  · rfl

/-- The signal sub-step never inserts a DRIFT_ANOMALY record. -/
theorem signalStepInserts_no_drift (now : Int) (rows : List Analysis) :
    (signalStepInserts now rows).filter
      (fun rec => decide (rec.type = "DRIFT_ANOMALY")) = [] := by
  unfold signalStepInserts
  split
  · rfl
  · rfl

/-- C5: on a batch of exactly three analyses with drift values 10, 45 and 5
and a configured drift threshold of 30, Hunter's fault-free scan appends
exactly one DRIFT_ANOMALY record, whose payload `count` equals 1 and whose
severity is HIGH. -/
theorem detectAnomalies_drift_scenario (now : Int) (r1 r2 r3 : Analysis)
    (h1 : r1.drift = 10) (h2 : r2.drift = 45) (h3 : r3.drift = 5) :
    ((detectAnomalies { driftThreshold := some 30 } ⟨false, false, false⟩ now
        [r1, r2, r3]).2.filter
      (fun rec => decide (rec.type = "DRIFT_ANOMALY"))).length = 1 ∧
    ∀ rec ∈ (detectAnomalies { driftThreshold := some 30 } ⟨false, false, false⟩ now
        [r1, r2, r3]).2,
      rec.type = "DRIFT_ANOMALY" →
        rec.data.lookupField "count" = some (.num 1) ∧ rec.severity = .HIGH := by
  have hlen : (hunterHighDrift { driftThreshold := some 30 } [r1, r2, r3]).length = 1 := by
    unfold hunterHighDrift
    rw [((hunterRecent_perm_of_le [r1, r2, r3] (by simp)).filter _).length_eq]
    have ht : hunterThreshold { driftThreshold := some 30 } = 30 := rfl
    simp [List.filter, ht, h1, h2, h3]
  have hout : (detectAnomalies { driftThreshold := some 30 } ⟨false, false, false⟩ now
      [r1, r2, r3]).2 =
      driftStepInserts { driftThreshold := some 30 } now [r1, r2, r3] ++
      contradictionStepInserts now [r1, r2, r3] ++
      signalStepInserts now [r1, r2, r3] := by
    simp only [detectAnomalies]
    rw [if_neg (fun hh => Bool.false_ne_true hh.2),
      if_neg (fun hh => Bool.false_ne_true hh.2),
      if_neg (fun hh => Bool.false_ne_true hh.2)]
  have hdrift : driftStepInserts { driftThreshold := some 30 } now [r1, r2, r3] =
      [mkDriftInsert 30 now (hunterHighDrift { driftThreshold := some 30 } [r1, r2, r3])] := by
    unfold driftStepInserts
    rw [if_pos (by rw [hlen]; exact Nat.zero_lt_one)]
    rfl
  constructor
  · rw [hout, List.filter_append, List.filter_append,
      contradictionStepInserts_no_drift, signalStepInserts_no_drift, hdrift]
    rfl
  · intro rec hrec hdr
    rw [hout, hdrift] at hrec
    simp only [List.mem_append] at hrec
    rcases hrec with (hrec | hrec) | hrec
    · simp only [List.mem_singleton] at hrec
      subst hrec
      refine ⟨?_, rfl⟩
      have hcount : (mkDriftInsert 30 now
          (hunterHighDrift { driftThreshold := some 30 } [r1, r2, r3])).data.lookupField
          "count" = some (JsonVal.num
          ((hunterHighDrift { driftThreshold := some 30 } [r1, r2, r3]).length : Int)) := rfl
      rw [hcount, hlen]
      rfl
    · exact absurd (List.mem_filter.mpr ⟨hrec, decide_eq_true hdr⟩)
        (by rw [contradictionStepInserts_no_drift]; exact List.not_mem_nil _)
    · exact absurd (List.mem_filter.mpr ⟨hrec, decide_eq_true hdr⟩)
        (by rw [signalStepInserts_no_drift]; exact List.not_mem_nil _)

/-- C5 witness: the drift scenario evaluated on three concrete analyses. -/
theorem detectAnomalies_drift_scenario_witness :
    ((detectAnomalies { driftThreshold := some 30 } ⟨false, false, false⟩ 0
        [c5Row1, c5Row2, c5Row3]).2.filter
      (fun rec => decide (rec.type = "DRIFT_ANOMALY"))).length = 1 ∧
    ∀ rec ∈ (detectAnomalies { driftThreshold := some 30 } ⟨false, false, false⟩ 0
        [c5Row1, c5Row2, c5Row3]).2,
      rec.type = "DRIFT_ANOMALY" →
        rec.data.lookupField "count" = some (.num 1) ∧ rec.severity = .HIGH :=
  detectAnomalies_drift_scenario 0 c5Row1 c5Row2 c5Row3 rfl rfl rfl

/-- C6: when the most recent Miner ledger entry has `processedAt = T` and the
most recent Reaper entry has `processedAt = T - 5000`, the dissonance check
appends exactly one record, of type PIPELINE_DISSONANCE, whose payload
`lagMs` equals 5000 and whose severity is MEDIUM. -/
theorem detectDissonance_lag_scenario (now T : Int) (ledger : List LedgerRow)
    (m r : LedgerRow) (mtl rtl : List LedgerRow)
    (hm : latestByModule .MINER ledger = m :: mtl)
    (hr : latestByModule .REAPER ledger = r :: rtl)
    (hmT : m.processedAt = T) (hrT : r.processedAt = T - 5000) :
    (detectDissonance now ledger).2.length = 1 ∧
    ∀ rec ∈ (detectDissonance now ledger).2,
      rec.type = "PIPELINE_DISSONANCE" ∧
      ((rec.data.lookupField "details").bind
        (fun d => d.lookupField "lagMs")) = some (.num 5000) ∧
      rec.severity = .MEDIUM := by
  have hlt : r.processedAt < m.processedAt := by rw [hmT, hrT]; omega
  have hlag : m.processedAt - r.processedAt = 5000 := by rw [hmT, hrT]; omega
  simp only [detectDissonance, hm, hr]
  rw [if_pos hlt]
  refine ⟨rfl, ?_⟩
  intro rec hrec
  simp only [List.mem_singleton] at hrec
  subst hrec
  refine ⟨rfl, ?_, rfl⟩
  have hdetails : ((logErrorInsert now "PIPELINE_DISSONANCE"
      (.obj [("latestMinerTime", .num m.processedAt),
             ("latestReaperTime", .num r.processedAt),
             ("lagMs", .num (m.processedAt - r.processedAt))])
      .MEDIUM).data.lookupField "details").bind (fun d => d.lookupField "lagMs") =
      some (JsonVal.num (m.processedAt - r.processedAt)) := rfl
  rw [hdetails, hlag]

/-- C6 witness: the lag scenario on a two-row ledger with Miner at 10000 and
Reaper at 5000. -/
theorem detectDissonance_lag_scenario_witness :
    (detectDissonance 0 c6Ledger).2.length = 1 ∧
    ∀ rec ∈ (detectDissonance 0 c6Ledger).2,
      rec.type = "PIPELINE_DISSONANCE" ∧
      ((rec.data.lookupField "details").bind
        (fun d => d.lookupField "lagMs")) = some (.num 5000) ∧
      rec.severity = .MEDIUM :=
  detectDissonance_lag_scenario 0 10000 c6Ledger c6MinerRow c6ReaperRow [] []
    rfl rfl rfl (by decide)

/-- C7: the SEMANTIC_SUMMARY record Reaper appends for a found analysis has
severity HIGH when its riskIndex exceeds 70, MEDIUM when it lies in (40, 70],
and LOW otherwise. -/
theorem extractSemanticEssence_severity_rule (now : Int) (analysisId : String)
    (table : List Analysis) (a : Analysis) (tl : List Analysis)
    (hfind : reaperFind analysisId table = a :: tl) :
    (extractSemanticEssence now analysisId table).2.length = 1 ∧
    ∀ rec ∈ (extractSemanticEssence now analysisId table).2,
      (70 < a.riskIndex → rec.severity = .HIGH) ∧
      (40 < a.riskIndex → a.riskIndex ≤ 70 → rec.severity = .MEDIUM) ∧
      (a.riskIndex ≤ 40 → rec.severity = .LOW) := by
  simp only [extractSemanticEssence, hfind]
  refine ⟨rfl, ?_⟩
  intro rec hrec
  simp only [List.mem_singleton] at hrec
  subst hrec
  refine ⟨fun hgt => ?_, fun hgt hle => ?_, fun hle => ?_⟩
  · show (if 70 < a.riskIndex then Severity.HIGH
      else if 40 < a.riskIndex then Severity.MEDIUM else Severity.LOW) = Severity.HIGH
    rw [if_pos hgt]
  · show (if 70 < a.riskIndex then Severity.HIGH
      else if 40 < a.riskIndex then Severity.MEDIUM else Severity.LOW) = Severity.MEDIUM
    rw [if_neg (by omega), if_pos hgt]
  · show (if 70 < a.riskIndex then Severity.HIGH
      else if 40 < a.riskIndex then Severity.MEDIUM else Severity.LOW) = Severity.LOW
    rw [if_neg (by omega), if_neg (by omega)]

/-- C7 witness: the severity rule applied to an analysis with riskIndex 85. -/
theorem extractSemanticEssence_severity_rule_witness :
    (extractSemanticEssence 0 "R1" [c7Analysis]).2.length = 1 ∧
    ∀ rec ∈ (extractSemanticEssence 0 "R1" [c7Analysis]).2,
      (70 < c7Analysis.riskIndex → rec.severity = .HIGH) ∧
      (40 < c7Analysis.riskIndex → c7Analysis.riskIndex ≤ 70 → rec.severity = .MEDIUM) ∧
      (c7Analysis.riskIndex ≤ 40 → rec.severity = .LOW) :=
  extractSemanticEssence_severity_rule 0 "R1" [c7Analysis] c7Analysis [] rfl

/-- Membership survives the builder's effective where-condition. -/
theorem mem_of_mem_applyWhere {w : Option (LedgerRow → Bool)}
    {rows : List LedgerRow} {r : LedgerRow} (h : r ∈ applyWhere w rows) :
    r ∈ rows := by
  cases w with
  | none => exact h
  | some p => exact List.mem_of_mem_filter h

/-- C9: every entry of the ledger endpoint's response comes from a stored row
with the same id, and its resonance/lambda value is the stored integer divided
by 100. -/
theorem ledgerQuery_lambda_scaled (inp : LedgerQueryInput) (rows : List LedgerRow)
    (e : LedgerEntryOut) (he : e ∈ ledgerQuery inp rows) :
    ∃ r, r ∈ rows ∧ e.id = r.id ∧ e.lambda = (r.lambda : ℚ) / 100 := by
  unfold ledgerQuery at he
  obtain ⟨r, hr, rfl⟩ := List.mem_map.mp he
  refine ⟨r, ?_, rfl, rfl⟩
  have hr2 : r ∈ List.insertionSort rowNewestFirst
      (applyWhere (effectiveWhere inp) rows) := List.mem_of_mem_take hr
  have hr3 : r ∈ applyWhere (effectiveWhere inp) rows :=
    (List.mem_insertionSort rowNewestFirst).mp hr2
  exact mem_of_mem_applyWhere hr3

/-- C9 witness: a stored lambda of 167 is returned as 167/100 = 1.67. -/
theorem ledgerQuery_lambda_scaled_witness :
    (∃ r, r ∈ [c9Row] ∧ (ledgerEntryOut c9Row).id = r.id ∧
      (ledgerEntryOut c9Row).lambda = (r.lambda : ℚ) / 100) ∧
    (ledgerEntryOut c9Row).lambda = 1.67 :=
  ⟨ledgerQuery_lambda_scaled c9Input [c9Row] (ledgerEntryOut c9Row)
    (by exact List.Mem.head _),
   by norm_num [ledgerEntryOut, c9Row]⟩

end Aletheia
